import Mathlib

/-!
Shallow embedding of `src/routes.py` (Tradebotpro), centred on the signal
generator `generate_mock_signals` and its HTTP handler `get_trading_signals`.

Python floats are modelled by `ℚ`; `random.uniform` / `random.choice` draws
are supplied explicitly by a draw source `g : ℕ → Draw` indexed by the loop
position.  Python's `round(x, n)` (round-half-to-even) is modelled by
`pyRound`, `int(x)` (truncation toward zero) by `pyInt`, and `str()` of a
float by the decimal formatter `pyFloatStr`.
-/

namespace Routes

/-- Trade direction, the values of the Python string field `action`. -/
inductive Action where
  | BUY : Action
  | SELL : Action
deriving DecidableEq, Repr

def Action.toStr : Action → String
  | .BUY => "BUY"
  | .SELL => "SELL"

/-- One loop iteration's random draws: the `random.uniform(-0.02, 0.02)`
price perturbation, the `random.uniform(85, 98)` confidence, and the
`random.choice(['BUY', 'SELL'])` pick (consulted only when `i ≠ 0`). -/
structure Draw where
  priceU : ℚ
  conf : ℚ
  pick : Action
deriving DecidableEq, Repr

/-- The ranges guaranteed by `random.uniform(-0.02, 0.02)` and
`random.uniform(85, 98)` in the source. -/
def ValidDraw (d : Draw) : Prop :=
  -1/50 ≤ d.priceU ∧ d.priceU ≤ 1/50 ∧ 85 ≤ d.conf ∧ d.conf < 98

instance (d : Draw) : Decidable (ValidDraw d) := by
  unfold ValidDraw; infer_instance

/-- Python `int()` on a float: truncation toward zero. -/
def pyInt (q : ℚ) : ℤ :=
  if 0 ≤ q then ⌊q⌋ else -⌊-q⌋

/-- Python `round()` to an integer: round half to even (banker's rounding). -/
def pyRound (q : ℚ) : ℤ :=
  if q - ⌊q⌋ < 1/2 then ⌊q⌋
  else if 1/2 < q - ⌊q⌋ then ⌊q⌋ + 1
  else if ⌊q⌋ % 2 = 0 then ⌊q⌋ else ⌊q⌋ + 1

/-- Python `round(x, 4)`. -/
def round4 (q : ℚ) : ℚ := (pyRound (q * 10000) : ℚ) / 10000

/-- Python `round(x, 2)`. -/
def round2 (q : ℚ) : ℚ := (pyRound (q * 100) : ℚ) / 100

/-- Strip trailing zeros from the 4-digit fractional block, keeping at
least one digit (as Python float `str()` prints `50.0`, `0.0037`). -/
def fracDigits (n : ℕ) : String :=
  let s := String.mk (Nat.toDigits 10 n)
  let padded := String.mk (List.replicate (4 - s.length) '0') ++ s
  let stripped := (padded.toList.reverse.dropWhile (fun c => c = '0')).reverse
  if stripped.isEmpty then "0" else String.mk stripped

/-- Python `str()` of a float whose value has at most 4 decimal places
(every float the source stringifies is first rounded to ≤ 4 places or is
an exact constant such as `50.0`). -/
def pyFloatStr (q : ℚ) : String :=
  let a := |q|
  let ip := (⌊a⌋).toNat
  let fr := (⌊(a - (⌊a⌋ : ℚ)) * 10000⌋).toNat
  (if q < 0 then "-" else "") ++ toString ip ++ "." ++ fracDigits fr

/-- The fixed symbol list `symbols` of `generate_mock_signals`. -/
def symbols : List String := ["ADA", "BTC", "ETH", "SOL", "LINK", "AVAX"]

/-- The fixed `base_prices` table of `generate_mock_signals`. -/
def base_prices : String → ℚ
  | "ADA" => 0.55
  | "BTC" => 67000
  | "ETH" => 3400
  | "SOL" => 145
  | "LINK" => 13.2
  | "AVAX" => 35.5
  | _ => 0

/-- The local variables computed by one iteration of the loop body of
`generate_mock_signals` (lines 68–92 of `src/routes.py`), before the
signal dict is assembled. -/
structure SignalVars where
  price : ℚ
  confidence : ℚ
  action : Action
  leverage : ℤ
  risk_amount : ℚ
  position_value : ℚ
  qty : ℚ
  stop_loss : ℚ
  take_profit : ℚ
deriving Repr

/-- The loop body's straight-line computation for index `i`, symbol
`symbol` and draws `d`. -/
def signalVars (i : ℕ) (symbol : String) (d : Draw) : SignalVars :=
  let price := base_prices symbol * (1 + d.priceU)
  let confidence := d.conf
  let action := if i = 0 then Action.SELL else d.pick
  let leverage := min (8 + pyInt (confidence - 85)) 15
  let risk_amount : ℚ := 50.0
  let position_value := 500.0 * (risk_amount / 100)
  let qty :=
    if symbol = "BTC" then position_value / price
    else if symbol = "ETH" then position_value / price
    else (position_value * leverage) / price
  let stop_loss := price * (if action = Action.SELL then 1.03 else 0.97)
  let take_profit := price * (if action = Action.SELL then 0.94 else 1.06)
  { price := price, confidence := confidence, action := action,
    leverage := leverage, risk_amount := risk_amount,
    position_value := position_value, qty := qty,
    stop_loss := stop_loss, take_profit := take_profit }

/-- The `risk_management` sub-dict of `bybit_settings`. -/
structure RiskMgmt where
  risk_amount_usd : String
  risk_percentage : String
  position_value_usd : String
  margin_required_usd : String
deriving DecidableEq, Repr

/-- The `execution_notes` sub-dict of `bybit_settings`. -/
structure ExecNotes where
  entry_strategy : String
  position_monitoring : String
  stop_loss_type : String
  take_profit_type : String
deriving DecidableEq, Repr

/-- The `bybit_settings` sub-dict of a signal. -/
structure BybitSettings where
  symbol : String
  side : Action
  orderType : String
  qty : String
  leverage : String
  stopLoss : String
  takeProfit : String
  timeInForce : String
  marginMode : String
  risk_management : RiskMgmt
  execution_notes : ExecNotes
deriving DecidableEq, Repr

/-- The signal dict built at lines 94–131 of `src/routes.py`. -/
structure Signal where
  symbol : String
  action : Action
  confidence : ℚ
  entry_price : ℚ
  stop_loss : ℚ
  take_profit : ℚ
  leverage : ℤ
  expected_return : ℚ
  risk_reward_ratio : ℚ
  time_horizon : String
  strategy_basis : String
  is_primary_trade : Bool
  trade_label : String
  bybit_settings : BybitSettings
deriving DecidableEq, Repr

/-- One iteration of `generate_mock_signals`: compute the loop-body
variables and assemble the signal dict exactly as lines 94–131 do. -/
def mkSignal (i : ℕ) (symbol : String) (d : Draw) : Signal :=
  let v := signalVars i symbol d
  { symbol := symbol
    action := v.action
    confidence := round2 v.confidence
    entry_price := round4 v.price
    stop_loss := round4 v.stop_loss
    take_profit := round4 v.take_profit
    leverage := v.leverage
    expected_return := 6.0
    risk_reward_ratio := 2.0
    time_horizon := "4H"
    strategy_basis := "Momentum Volume Analysis"
    is_primary_trade := i = 0
    trade_label := if i = 0 then "YOUR TRADE" else "ALTERNATIVE"
    bybit_settings :=
      { symbol := symbol ++ "USDT"
        side := v.action
        orderType := "Market"
        qty := pyFloatStr (round4 v.qty)
        leverage := toString v.leverage
        stopLoss := pyFloatStr (round4 v.stop_loss)
        takeProfit := pyFloatStr (round4 v.take_profit)
        timeInForce := "GTC"
        marginMode := "isolated"
        risk_management :=
          { risk_amount_usd := pyFloatStr v.risk_amount
            risk_percentage := pyFloatStr ((v.risk_amount / 500) * 100) ++ "%"
            position_value_usd := pyFloatStr (round2 (v.position_value * v.leverage))
            margin_required_usd := pyFloatStr (round2 v.position_value) }
        execution_notes :=
          { entry_strategy := "Market order for immediate execution"
            position_monitoring := "Monitor for 4-8 hours based on momentum"
            stop_loss_type := "Stop-market order"
            take_profit_type := "Limit order" } } }

/-- `generate_mock_signals`: iterate over the fixed symbol list, drawing
this iteration's randomness from the source `g`. -/
def generate_mock_signals (g : ℕ → Draw) : List Signal :=
  symbols.enum.map (fun p => mkSignal p.1 p.2 (g p.1))

/-- JSON values, as produced by Flask's `jsonify`. -/
inductive Json where
  | num (q : ℚ) : Json
  | str (s : String) : Json
  | jbool (b : Bool) : Json
  | obj (fields : List (String × Json)) : Json
  | arr (elems : List Json) : Json

/-- Look up a key in a JSON object. -/
def Json.get (j : Json) (k : String) : Option Json :=
  match j with
  | .obj fields => List.lookup k fields
  | _ => none

/-- How `jsonify` serialises one signal dict: Python floats and ints
become JSON numbers, Python strings become JSON strings, preserving the
`str(...)` conversions the source applies inside `bybit_settings`. -/
def signalToJson (s : Signal) : Json :=
  let b := s.bybit_settings
  let r := b.risk_management
  let e := b.execution_notes
  Json.obj
    [ ("symbol", Json.str s.symbol),
      ("action", Json.str s.action.toStr),
      ("confidence", Json.num s.confidence),
      ("entry_price", Json.num s.entry_price),
      ("stop_loss", Json.num s.stop_loss),
      ("take_profit", Json.num s.take_profit),
      ("leverage", Json.num (s.leverage : ℚ)),
      ("expected_return", Json.num s.expected_return),
      ("risk_reward_ratio", Json.num s.risk_reward_ratio),
      ("time_horizon", Json.str s.time_horizon),
      ("strategy_basis", Json.str s.strategy_basis),
      ("is_primary_trade", Json.jbool s.is_primary_trade),
      ("trade_label", Json.str s.trade_label),
      ("bybit_settings", Json.obj
        [ ("symbol", Json.str b.symbol),
          ("side", Json.str b.side.toStr),
          ("orderType", Json.str b.orderType),
          ("qty", Json.str b.qty),
          ("leverage", Json.str b.leverage),
          ("stopLoss", Json.str b.stopLoss),
          ("takeProfit", Json.str b.takeProfit),
          ("timeInForce", Json.str b.timeInForce),
          ("marginMode", Json.str b.marginMode),
          ("risk_management", Json.obj
            [ ("risk_amount_usd", Json.str r.risk_amount_usd),
              ("risk_percentage", Json.str r.risk_percentage),
              ("position_value_usd", Json.str r.position_value_usd),
              ("margin_required_usd", Json.str r.margin_required_usd) ]),
          ("execution_notes", Json.obj
            [ ("entry_strategy", Json.str e.entry_strategy),
              ("position_monitoring", Json.str e.position_monitoring),
              ("stop_loss_type", Json.str e.stop_loss_type),
              ("take_profit_type", Json.str e.take_profit_type) ]) ]) ]

/-- The `/api/signals` handler `get_trading_signals` (lines 52–61): the
body that can raise is modelled as an `Except` value; on success the
generated list is serialised unchanged, on any exception the handler
returns `jsonify([])`. -/
def get_trading_signals (gen : Except String (List Signal)) : Json :=
  match gen with
  | .ok signals => Json.arr (signals.map signalToJson)
  | .error _ => Json.arr []

/-! ### Helper lemmas -/

/-- `generate_mock_signals` unfolded to its six iterations. -/
lemma generate_mock_signals_eq (g : ℕ → Draw) :
    generate_mock_signals g =
      [mkSignal 0 "ADA" (g 0), mkSignal 1 "BTC" (g 1), mkSignal 2 "ETH" (g 2),
       mkSignal 3 "SOL" (g 3), mkSignal 4 "LINK" (g 4), mkSignal 5 "AVAX" (g 5)] := rfl

/-- `pyRound` is within a half of its argument. -/
lemma pyRound_abs_sub_le (q : ℚ) : |(pyRound q : ℚ) - q| ≤ 1/2 := by
  have h0 : ((⌊q⌋ : ℤ) : ℚ) ≤ q := Int.floor_le q
  have h1 : q < (⌊q⌋ : ℤ) + 1 := Int.lt_floor_add_one q
  unfold pyRound
  split_ifs with ha hb hc <;> rw [abs_le] <;> constructor <;> push_cast at * <;> linarith

/-- `round4` is within half a ten-thousandth of its argument. -/
lemma round4_abs_sub_le (q : ℚ) : |round4 q - q| ≤ 1/20000 := by
  have h := pyRound_abs_sub_le (q * 10000)
  rw [abs_le] at h ⊢
  unfold round4
  constructor <;> [skip; skip] <;> nlinarith [h.1, h.2]

/-- Evaluate `pyFloatStr` at a nonnegative value with known integer and
fractional parts. -/
lemma pyFloatStr_eval (q : ℚ) (ip fr : ℕ) (h0 : 0 ≤ q) (h1 : ⌊q⌋ = (ip : ℤ))
    (h2 : ⌊(q - (ip : ℚ)) * 10000⌋ = (fr : ℤ)) :
    pyFloatStr q = toString ip ++ "." ++ fracDigits fr := by
  unfold pyFloatStr
  rw [abs_of_nonneg h0]
  simp only [if_neg (not_lt.mpr h0), h1]
  rw [show ((ip : ℤ) : ℚ) = (ip : ℚ) by push_cast; ring, h2]
  simp

/-- `pyInt` agrees with the floor on nonnegative arguments. -/
lemma pyInt_eq_floor (q : ℚ) (h : 0 ≤ q) : pyInt q = ⌊q⌋ := by
  unfold pyInt; rw [if_pos h]

/-! ### Claims -/

/-- C1: for every random source, `generate_mock_signals` returns exactly
six `Signal` records, one per symbol, in the fixed order ADA, BTC, ETH,
SOL, LINK, AVAX, each record's `symbol` field equal to the symbol at its
position. -/
theorem C1_six_signals_fixed_order (g : ℕ → Draw) :
    (generate_mock_signals g).length = 6 ∧
    (generate_mock_signals g).map Signal.symbol =
      ["ADA", "BTC", "ETH", "SOL", "LINK", "AVAX"] :=
  ⟨rfl, rfl⟩

/-- C2: for every random source, exactly one signal is marked primary —
the one at index 0, with `trade_label` "YOUR TRADE" — and its action is
always SELL; every other signal has `is_primary_trade` false,
`trade_label` "ALTERNATIVE", and its action is whatever the random
choice draw for its index produced. -/
theorem C2_primary_sell_labels (g : ℕ → Draw) :
    (generate_mock_signals g).map (fun s => (s.is_primary_trade, s.trade_label)) =
      [(true, "YOUR TRADE"), (false, "ALTERNATIVE"), (false, "ALTERNATIVE"),
       (false, "ALTERNATIVE"), (false, "ALTERNATIVE"), (false, "ALTERNATIVE")] ∧
    (generate_mock_signals g).map Signal.action =
      [Action.SELL, (g 1).pick, (g 2).pick, (g 3).pick, (g 4).pick, (g 5).pick] ∧
    ((generate_mock_signals g).filter (fun s => s.is_primary_trade)).length = 1 :=
  ⟨rfl, rfl, rfl⟩

/-- C9: the `/api/signals` handler returns the generator's output list,
serialised unchanged, when generation succeeds, and returns an empty
list for every failure raised during generation. -/
theorem C9_handler_catches_to_empty (g : ℕ → Draw) (e : String) :
    get_trading_signals (Except.ok (generate_mock_signals g)) =
      Json.arr ((generate_mock_signals g).map signalToJson) ∧
    get_trading_signals (Except.error e) = Json.arr [] :=
  ⟨rfl, rfl⟩

/-- C3: for every signal whose confidence draw lies in `[85, 98)`, the
leverage field equals `min (8 + ⌊confidence - 85⌋) 15`, hence is an
integer in `[8, 15]`. -/
theorem C3_leverage_range (i : ℕ) (sym : String) (d : Draw)
    (h1 : 85 ≤ d.conf) (h2 : d.conf < 98) :
    (mkSignal i sym d).leverage = min (8 + ⌊d.conf - 85⌋) 15 ∧
    8 ≤ (mkSignal i sym d).leverage ∧ (mkSignal i sym d).leverage ≤ 15 := by
  have hnn : (0:ℚ) ≤ d.conf - 85 := by linarith
  have hpy : pyInt (d.conf - 85) = ⌊d.conf - 85⌋ := pyInt_eq_floor _ hnn
  have hfl0 : 0 ≤ ⌊d.conf - 85⌋ := Int.floor_nonneg.mpr hnn
  have hfl13 : ⌊d.conf - 85⌋ < 13 := Int.floor_lt.mpr (by push_cast; linarith)
  refine ⟨?_, ?_, ?_⟩ <;> simp only [mkSignal, signalVars, hpy] <;> omega

/-- Witness for C3 at the concrete draw `⟨0, 90, BUY⟩`. -/
theorem C3_leverage_range_witness :
    (85 ≤ (Draw.mk 0 90 Action.BUY).conf ∧ (Draw.mk 0 90 Action.BUY).conf < 98) ∧
    ((mkSignal 0 "ADA" (Draw.mk 0 90 Action.BUY)).leverage =
        min (8 + ⌊(Draw.mk 0 90 Action.BUY).conf - 85⌋) 15 ∧
      8 ≤ (mkSignal 0 "ADA" (Draw.mk 0 90 Action.BUY)).leverage ∧
      (mkSignal 0 "ADA" (Draw.mk 0 90 Action.BUY)).leverage ≤ 15) :=
  ⟨⟨by norm_num, by norm_num⟩,
    C3_leverage_range 0 "ADA" (Draw.mk 0 90 Action.BUY) (by norm_num) (by norm_num)⟩

/-- C4: with `position_value` fixed at 250.0, the unrounded quantity is
`250 / price` for BTC and ETH (no leverage factor) and
`250 * leverage / price` for ADA, SOL, LINK and AVAX, for every index
and every draw. -/
theorem C4_qty_asymmetry (i : ℕ) (d : Draw) :
    (signalVars i "BTC" d).position_value = 250 ∧
    (signalVars i "BTC" d).qty = 250 / (signalVars i "BTC" d).price ∧
    (signalVars i "ETH" d).qty = 250 / (signalVars i "ETH" d).price ∧
    (signalVars i "ADA" d).qty =
      250 * ((signalVars i "ADA" d).leverage : ℚ) / (signalVars i "ADA" d).price ∧
    (signalVars i "SOL" d).qty =
      250 * ((signalVars i "SOL" d).leverage : ℚ) / (signalVars i "SOL" d).price ∧
    (signalVars i "LINK" d).qty =
      250 * ((signalVars i "LINK" d).leverage : ℚ) / (signalVars i "LINK" d).price ∧
    (signalVars i "AVAX" d).qty =
      250 * ((signalVars i "AVAX" d).leverage : ℚ) / (signalVars i "AVAX" d).price := by
  refine ⟨?_, ?_, ?_, ?_, ?_, ?_, ?_⟩ <;> norm_num [signalVars] <;>
    rw [if_neg (by decide), if_neg (by decide)]

/-- C7: at the input where the BTC price draw has factor exactly 1
(price = 67000) and the BTC action is SELL, the BTC signal has
`entry_price = 67000`, `stop_loss = 69010`, `take_profit = 62980`, the
unrounded quantity is `250 / 67000`, and the emitted `qty` string is
"0.0037" (the quantity rounded to 4 decimal places). -/
theorem C7_btc_exact_example :
    (mkSignal 1 "BTC" (Draw.mk 0 90 Action.SELL)).action = Action.SELL ∧
    (signalVars 1 "BTC" (Draw.mk 0 90 Action.SELL)).price = 67000 ∧
    (signalVars 1 "BTC" (Draw.mk 0 90 Action.SELL)).qty = 250 / 67000 ∧
    (mkSignal 1 "BTC" (Draw.mk 0 90 Action.SELL)).entry_price = 67000 ∧
    (mkSignal 1 "BTC" (Draw.mk 0 90 Action.SELL)).stop_loss = 69010 ∧
    (mkSignal 1 "BTC" (Draw.mk 0 90 Action.SELL)).take_profit = 62980 ∧
    (mkSignal 1 "BTC" (Draw.mk 0 90 Action.SELL)).bybit_settings.qty = "0.0037" := by
  refine ⟨rfl, by norm_num [signalVars, base_prices], by norm_num [signalVars, base_prices],
    ?_, ?_, ?_, ?_⟩
  · norm_num [mkSignal, signalVars, base_prices, round4, pyRound]
  · norm_num [mkSignal, signalVars, base_prices, round4, pyRound]
  · norm_num [mkSignal, signalVars, base_prices, round4, pyRound]
  · have hq : round4 ((signalVars 1 "BTC" (Draw.mk 0 90 Action.SELL)).qty) = 37/10000 := by
      norm_num [signalVars, base_prices, round4, pyRound]
    show pyFloatStr (round4 ((signalVars 1 "BTC" (Draw.mk 0 90 Action.SELL)).qty)) = "0.0037"
    rw [hq, pyFloatStr_eval (37/10000) 0 37 (by norm_num) (by norm_num) (by norm_num)]
    decide

/-- For each of the six symbols and any in-range draw, the perturbed
price is at least 1/100. -/
lemma price_lower_bound (i : ℕ) (sym : String) (d : Draw)
    (hsym : sym ∈ symbols) (hd : ValidDraw d) :
    1/100 ≤ (signalVars i sym d).price := by
  obtain ⟨h1, h2, _, _⟩ := hd
  fin_cases hsym <;> simp only [signalVars, base_prices] <;> linarith

/-- The rounded stop/target multipliers preserve strict ordering for any
price at least 1/100 (the multiplicative gap dominates the rounding
error). -/
lemma round4_bracket (p : ℚ) (hp : 1/100 ≤ p) :
    round4 p < round4 (p * 1.03) ∧ round4 (p * 0.94) < round4 p ∧
    round4 (p * 0.97) < round4 p ∧ round4 p < round4 (p * 1.06) := by
  have b0 := round4_abs_sub_le p
  have b1 := round4_abs_sub_le (p * 1.03)
  have b2 := round4_abs_sub_le (p * 0.94)
  have b3 := round4_abs_sub_le (p * 0.97)
  have b4 := round4_abs_sub_le (p * 1.06)
  rw [abs_le] at b0 b1 b2 b3 b4
  refine ⟨?_, ?_, ?_, ?_⟩ <;>
    nlinarith [b0.1, b0.2, b1.1, b1.2, b2.1, b2.2, b3.1, b3.2, b4.1, b4.2]

/-- C5: stop-loss and take-profit are the price scaled by the fixed
action-dependent multipliers (SELL: 1.03 and 0.94; BUY: 0.97 and 1.06),
and the rounded output fields strictly bracket the rounded entry price
in the direction of the action. -/
theorem C5_bracketing (i : ℕ) (sym : String) (d : Draw)
    (hsym : sym ∈ symbols) (hd : ValidDraw d) :
    (signalVars i sym d).stop_loss =
      (signalVars i sym d).price *
        (if (signalVars i sym d).action = Action.SELL then 1.03 else 0.97) ∧
    (signalVars i sym d).take_profit =
      (signalVars i sym d).price *
        (if (signalVars i sym d).action = Action.SELL then 0.94 else 1.06) ∧
    ((signalVars i sym d).action = Action.SELL →
      (mkSignal i sym d).entry_price < (mkSignal i sym d).stop_loss ∧
      (mkSignal i sym d).take_profit < (mkSignal i sym d).entry_price) ∧
    ((signalVars i sym d).action = Action.BUY →
      (mkSignal i sym d).stop_loss < (mkSignal i sym d).entry_price ∧
      (mkSignal i sym d).entry_price < (mkSignal i sym d).take_profit) := by
  have hp := price_lower_bound i sym d hsym hd
  have hb := round4_bracket _ hp
  refine ⟨rfl, rfl, ?_, ?_⟩
  · intro hsell
    have hsl : (signalVars i sym d).stop_loss = (signalVars i sym d).price * 1.03 := by
      show (signalVars i sym d).price *
          (if (signalVars i sym d).action = Action.SELL then 1.03 else 0.97) = _
      rw [if_pos hsell]
    have htp : (signalVars i sym d).take_profit = (signalVars i sym d).price * 0.94 := by
      show (signalVars i sym d).price *
          (if (signalVars i sym d).action = Action.SELL then 0.94 else 1.06) = _
      rw [if_pos hsell]
    constructor
    · show round4 (signalVars i sym d).price < round4 (signalVars i sym d).stop_loss
      rw [hsl]; exact hb.1
    · show round4 (signalVars i sym d).take_profit < round4 (signalVars i sym d).price
      rw [htp]; exact hb.2.1
  · intro hbuy
    have hne : ¬ (signalVars i sym d).action = Action.SELL := by
      rw [hbuy]; intro hcontra; exact Action.noConfusion hcontra
    have hsl : (signalVars i sym d).stop_loss = (signalVars i sym d).price * 0.97 := by
      show (signalVars i sym d).price *
          (if (signalVars i sym d).action = Action.SELL then 1.03 else 0.97) = _
      rw [if_neg hne]
    have htp : (signalVars i sym d).take_profit = (signalVars i sym d).price * 1.06 := by
      show (signalVars i sym d).price *
          (if (signalVars i sym d).action = Action.SELL then 0.94 else 1.06) = _
      rw [if_neg hne]
    constructor
    · show round4 (signalVars i sym d).stop_loss < round4 (signalVars i sym d).price
      rw [hsl]; exact hb.2.2.1
    · show round4 (signalVars i sym d).price < round4 (signalVars i sym d).take_profit
      rw [htp]; exact hb.2.2.2

/-- Witness for C5 at index 0, symbol ADA, draw `⟨0, 90, BUY⟩` (index 0
forces SELL). -/
theorem C5_bracketing_witness :
    ("ADA" ∈ symbols ∧ ValidDraw (Draw.mk 0 90 Action.BUY)) ∧
    ((signalVars 0 "ADA" (Draw.mk 0 90 Action.BUY)).stop_loss =
      (signalVars 0 "ADA" (Draw.mk 0 90 Action.BUY)).price *
        (if (signalVars 0 "ADA" (Draw.mk 0 90 Action.BUY)).action = Action.SELL then 1.03
         else 0.97) ∧
    (signalVars 0 "ADA" (Draw.mk 0 90 Action.BUY)).take_profit =
      (signalVars 0 "ADA" (Draw.mk 0 90 Action.BUY)).price *
        (if (signalVars 0 "ADA" (Draw.mk 0 90 Action.BUY)).action = Action.SELL then 0.94
         else 1.06) ∧
    ((signalVars 0 "ADA" (Draw.mk 0 90 Action.BUY)).action = Action.SELL →
      (mkSignal 0 "ADA" (Draw.mk 0 90 Action.BUY)).entry_price <
        (mkSignal 0 "ADA" (Draw.mk 0 90 Action.BUY)).stop_loss ∧
      (mkSignal 0 "ADA" (Draw.mk 0 90 Action.BUY)).take_profit <
        (mkSignal 0 "ADA" (Draw.mk 0 90 Action.BUY)).entry_price) ∧
    ((signalVars 0 "ADA" (Draw.mk 0 90 Action.BUY)).action = Action.BUY →
      (mkSignal 0 "ADA" (Draw.mk 0 90 Action.BUY)).stop_loss <
        (mkSignal 0 "ADA" (Draw.mk 0 90 Action.BUY)).entry_price ∧
      (mkSignal 0 "ADA" (Draw.mk 0 90 Action.BUY)).entry_price <
        (mkSignal 0 "ADA" (Draw.mk 0 90 Action.BUY)).take_profit)) := by
  have hmem : "ADA" ∈ symbols := by decide
  have hvd : ValidDraw (Draw.mk 0 90 Action.BUY) := by
    refine ⟨by norm_num, by norm_num, by norm_num, by norm_num⟩
  exact ⟨⟨hmem, hvd⟩, C5_bracketing 0 "ADA" (Draw.mk 0 90 Action.BUY) hmem hvd⟩

/-- C6 counterexample: two random sources whose price draws differ at
every index can still produce identical `entry_price` lists (the
perturbations differ by less than the 4-decimal rounding step), so
"different seeds give different entry_price values" fails as stated. -/
theorem C6_counterexample :
    (∀ i : ℕ, ((fun _ => Draw.mk 0 90 Action.BUY : ℕ → Draw) i).priceU ≠
        ((fun _ => Draw.mk (1/10000000000) 90 Action.BUY : ℕ → Draw) i).priceU) ∧
    (generate_mock_signals (fun _ => Draw.mk 0 90 Action.BUY)).map Signal.entry_price =
      (generate_mock_signals (fun _ => Draw.mk (1/10000000000) 90 Action.BUY)).map
        Signal.entry_price := by
  constructor
  · intro _; norm_num
  · simp only [generate_mock_signals_eq, List.map, mkSignal, signalVars, base_prices]
    norm_num [round4, pyRound]

/-- C6 amended: across any two runs the structural fields (symbol order
and primary/alternative labelling) agree position by position, and entry
prices do depend on the random source (some pairs of sources give
different entry-price lists), though distinct sources need not give
different rounded entry prices. -/
theorem C6_structural_invariance (g1 g2 : ℕ → Draw) :
    (generate_mock_signals g1).map Signal.symbol =
      (generate_mock_signals g2).map Signal.symbol ∧
    (generate_mock_signals g1).map (fun s => (s.is_primary_trade, s.trade_label)) =
      (generate_mock_signals g2).map (fun s => (s.is_primary_trade, s.trade_label)) ∧
    ∃ h1 h2 : ℕ → Draw,
      (generate_mock_signals h1).map Signal.entry_price ≠
        (generate_mock_signals h2).map Signal.entry_price := by
  refine ⟨rfl, rfl,
    fun _ => Draw.mk 0 90 Action.BUY, fun _ => Draw.mk (1/100) 90 Action.BUY, ?_⟩
  intro hEq
  simp only [generate_mock_signals_eq, List.map, mkSignal, signalVars, base_prices,
    List.cons.injEq] at hEq
  have h1 := hEq.1
  norm_num [round4, pyRound] at h1

/-- Shape of the serialised signal: which fields are JSON numbers and
which are JSON strings, for any signal produced by `mkSignal`. -/
lemma signalToJson_shape (i : ℕ) (sym : String) (d : Draw) :
    (∃ q, (signalToJson (mkSignal i sym d)).get "confidence" = some (Json.num q)) ∧
    (∃ q, (signalToJson (mkSignal i sym d)).get "entry_price" = some (Json.num q)) ∧
    (∃ q, (signalToJson (mkSignal i sym d)).get "stop_loss" = some (Json.num q)) ∧
    (∃ q, (signalToJson (mkSignal i sym d)).get "take_profit" = some (Json.num q)) ∧
    (∃ q, (signalToJson (mkSignal i sym d)).get "leverage" = some (Json.num q)) ∧
    ∃ b, (signalToJson (mkSignal i sym d)).get "bybit_settings" = some b ∧
      (∃ t, b.get "qty" = some (Json.str t)) ∧
      (∃ t, b.get "leverage" = some (Json.str t)) ∧
      (∃ t, b.get "stopLoss" = some (Json.str t)) ∧
      (∃ t, b.get "takeProfit" = some (Json.str t)) ∧
      ∃ r, b.get "risk_management" = some r ∧
        (∃ t, r.get "risk_amount_usd" = some (Json.str t)) ∧
        (∃ t, r.get "position_value_usd" = some (Json.str t)) ∧
        (∃ t, r.get "margin_required_usd" = some (Json.str t)) ∧
        (∃ t, r.get "risk_percentage" = some (Json.str t)) := by
  exact ⟨⟨_, rfl⟩, ⟨_, rfl⟩, ⟨_, rfl⟩, ⟨_, rfl⟩, ⟨_, rfl⟩, _, rfl,
    ⟨_, rfl⟩, ⟨_, rfl⟩, ⟨_, rfl⟩, ⟨_, rfl⟩, _, rfl,
    ⟨_, rfl⟩, ⟨_, rfl⟩, ⟨_, rfl⟩, ⟨_, rfl⟩⟩

/-- C8: in every emitted signal, the top-level fields confidence,
entry_price, stop_loss, take_profit and leverage are serialised as JSON
numbers, while inside `bybit_settings` the fields qty, leverage,
stopLoss, takeProfit and the risk_management amounts and percentage are
serialised as JSON strings, on every run. -/
theorem C8_string_number_split (g : ℕ → Draw) (s : Signal)
    (hs : s ∈ generate_mock_signals g) :
    (∃ q, (signalToJson s).get "confidence" = some (Json.num q)) ∧
    (∃ q, (signalToJson s).get "entry_price" = some (Json.num q)) ∧
    (∃ q, (signalToJson s).get "stop_loss" = some (Json.num q)) ∧
    (∃ q, (signalToJson s).get "take_profit" = some (Json.num q)) ∧
    (∃ q, (signalToJson s).get "leverage" = some (Json.num q)) ∧
    ∃ b, (signalToJson s).get "bybit_settings" = some b ∧
      (∃ t, b.get "qty" = some (Json.str t)) ∧
      (∃ t, b.get "leverage" = some (Json.str t)) ∧
      (∃ t, b.get "stopLoss" = some (Json.str t)) ∧
      (∃ t, b.get "takeProfit" = some (Json.str t)) ∧
      ∃ r, b.get "risk_management" = some r ∧
        (∃ t, r.get "risk_amount_usd" = some (Json.str t)) ∧
        (∃ t, r.get "position_value_usd" = some (Json.str t)) ∧
        (∃ t, r.get "margin_required_usd" = some (Json.str t)) ∧
        (∃ t, r.get "risk_percentage" = some (Json.str t)) := by
  rw [generate_mock_signals_eq] at hs
  simp only [List.mem_cons, List.not_mem_nil, or_false] at hs
  rcases hs with rfl | rfl | rfl | rfl | rfl | rfl <;> exact signalToJson_shape _ _ _

/-- Witness for C8 on the constant draw source, first emitted signal. -/
theorem C8_string_number_split_witness :
    (mkSignal 0 "ADA" (Draw.mk 0 90 Action.BUY) ∈
      generate_mock_signals (fun _ => Draw.mk 0 90 Action.BUY)) ∧
    (∃ q, (signalToJson (mkSignal 0 "ADA" (Draw.mk 0 90 Action.BUY))).get "confidence" =
      some (Json.num q)) := by
  have hmem : mkSignal 0 "ADA" (Draw.mk 0 90 Action.BUY) ∈
      generate_mock_signals (fun _ => Draw.mk 0 90 Action.BUY) := by
    rw [generate_mock_signals_eq]; exact List.mem_cons_self _ _
  exact ⟨hmem, (C8_string_number_split (fun _ => Draw.mk 0 90 Action.BUY) _ hmem).1⟩

/-- The undocumented constant fields carried by every signal built by
`mkSignal`. -/
lemma mkSignal_constants (i : ℕ) (sym : String) (d : Draw) :
    (mkSignal i sym d).expected_return = 6 ∧
    (mkSignal i sym d).risk_reward_ratio = 2 ∧
    (mkSignal i sym d).time_horizon = "4H" ∧
    (mkSignal i sym d).strategy_basis = "Momentum Volume Analysis" ∧
    (mkSignal i sym d).bybit_settings.symbol = (mkSignal i sym d).symbol ++ "USDT" ∧
    (mkSignal i sym d).bybit_settings.orderType = "Market" ∧
    (mkSignal i sym d).bybit_settings.timeInForce = "GTC" ∧
    (mkSignal i sym d).bybit_settings.marginMode = "isolated" ∧
    (mkSignal i sym d).bybit_settings.risk_management.risk_amount_usd = "50.0" ∧
    (mkSignal i sym d).bybit_settings.risk_management.risk_percentage = "10.0%" := by
  refine ⟨by norm_num [mkSignal], by norm_num [mkSignal], rfl, rfl, rfl, rfl, rfl, rfl, ?_, ?_⟩
  · show pyFloatStr (signalVars i sym d).risk_amount = "50.0"
    rw [show (signalVars i sym d).risk_amount = (50 : ℚ) by norm_num [signalVars]]
    rw [pyFloatStr_eval 50 50 0 (by norm_num) (by norm_num) (by norm_num)]
    decide
  · show pyFloatStr ((signalVars i sym d).risk_amount / 500 * 100) ++ "%" = "10.0%"
    rw [show (signalVars i sym d).risk_amount / 500 * 100 = (10 : ℚ) by
      norm_num [signalVars]]
    rw [pyFloatStr_eval 10 10 0 (by norm_num) (by norm_num) (by norm_num)]
    decide

/-- C10: every signal emitted by `generate_mock_signals`, for every
symbol and every draw, carries the same constant values in the
undocumented fields: expected_return 6.0, risk_reward_ratio 2.0,
time_horizon "4H", strategy_basis "Momentum Volume Analysis", and
within bybit_settings: symbol = top-level symbol ++ "USDT", orderType
"Market", timeInForce "GTC", marginMode "isolated", risk_amount_usd
"50.0", risk_percentage "10.0%". -/
theorem C10_constant_fields (g : ℕ → Draw) (s : Signal)
    (hs : s ∈ generate_mock_signals g) :
    s.expected_return = 6 ∧
    s.risk_reward_ratio = 2 ∧
    s.time_horizon = "4H" ∧
    s.strategy_basis = "Momentum Volume Analysis" ∧
    s.bybit_settings.symbol = s.symbol ++ "USDT" ∧
    s.bybit_settings.orderType = "Market" ∧
    s.bybit_settings.timeInForce = "GTC" ∧
    s.bybit_settings.marginMode = "isolated" ∧
    s.bybit_settings.risk_management.risk_amount_usd = "50.0" ∧
    s.bybit_settings.risk_management.risk_percentage = "10.0%" := by
  rw [generate_mock_signals_eq] at hs
  simp only [List.mem_cons, List.not_mem_nil, or_false] at hs
  rcases hs with rfl | rfl | rfl | rfl | rfl | rfl <;> exact mkSignal_constants _ _ _

/-- Witness for C10 on the constant draw source, first emitted signal. -/
theorem C10_constant_fields_witness :
    (mkSignal 0 "ADA" (Draw.mk 0 90 Action.BUY) ∈
      generate_mock_signals (fun _ => Draw.mk 0 90 Action.BUY)) ∧
    (mkSignal 0 "ADA" (Draw.mk 0 90 Action.BUY)).bybit_settings.risk_management.risk_amount_usd =
      "50.0" := by
  have hmem : mkSignal 0 "ADA" (Draw.mk 0 90 Action.BUY) ∈
      generate_mock_signals (fun _ => Draw.mk 0 90 Action.BUY) := by
    rw [generate_mock_signals_eq]; exact List.mem_cons_self _ _
  exact ⟨hmem,
    (C10_constant_fields (fun _ => Draw.mk 0 90 Action.BUY) _ hmem).2.2.2.2.2.2.2.2.1⟩

end Routes
